import Mathlib

/-!
Verification of the alarm notification dispatch pipeline of
`src/main.py` (virtual BACnet temperature sensor with alarm listener,
SMS, email, logging and rate limiting).

The embedding mirrors the source: module-level configuration constants,
the global `last_alert_time` cell (initialised to `0`), the handler
`AlarmListenerApplication.confirmedEventNotificationRequest`, the
helpers `log_alarm`, `send_sms_via_teltonika` and `send_email_alert`.
Clock readings are modelled as integers; external effects (CSV writes,
HTTP posts, SMTP traffic, thread starts, prints) are recorded as an
explicit action trace. Fallibility of the external world is injected as
boolean/step parameters, matching the try/except structure of the code.
-/

namespace BACnetSMS

/-- Rate limiting interval in seconds (`ALERT_INTERVAL = 300` in main.py). -/
def ALERT_INTERVAL : Int := 300

/-- SMS recipient list from the configuration block of main.py. -/
def SMS_RECIPIENTS : List String := ["+61412345678", "+61498765432"]

/-- Email recipient list from the configuration block of main.py. -/
def EMAIL_RECIPIENTS : List String := ["recipient1@example.com", "recipient2@example.com"]

/-- Initial value of the module global `last_alert_time` (`last_alert_time = 0`). -/
def last_alert_time_init : Int := 0

/-- An inbound BACnet alarm notification as the handler reads it:
`getattr(apdu, "timeStamp", None)` and `getattr(apdu, "messageText", None)`
both yield optional values. -/
structure AlarmEvent where
  timeStamp : Option Int
  messageText : Option String
deriving DecidableEq

/-- Observable actions of one handler invocation, in program order.
`logCall` records the single call to `log_alarm` (with the outcome of the
CSV write: the code catches a failed write and prints an error, so the
call itself always returns); `rateCheck` records the rate-limit
comparison at line 122; `smsTask` and `emailTask` record the worker
threads started for delivery; `suppressDiag` records the suppression
message with the remaining cooldown. -/
inductive Action where
  | logCall (loggedAt : Int) (ts : Option Int) (msg : Option String) (writeOk : Bool)
  | rateCheck (now : Int) (admitted : Bool)
  | smsTask (number : String) (msg : Option String)
  | emailTask (subject : String) (msg : Option String) (recipients : List String)
  | suppressDiag (remaining : Int)
deriving DecidableEq

/-- True exactly on the `logCall` action. -/
def Action.isLogCall : Action → Bool
  | .logCall _ _ _ _ => true
  | _ => false

/-- True exactly on the `smsTask` action. -/
def Action.isSms : Action → Bool
  | .smsTask _ _ => true
  | _ => false

/-- True exactly on the `emailTask` action. -/
def Action.isEmail : Action → Bool
  | .emailTask _ _ _ => true
  | _ => false

/-- True on delivery-task actions (an SMS or email worker thread start). -/
def Action.isDispatch : Action → Bool
  | .smsTask _ _ => true
  | .emailTask _ _ _ => true
  | _ => false

/-- Embedding of `log_alarm(last_update, message)`: one CSV append attempt
per call; an I/O failure (`writeOk = false`) is caught inside the
function (`except ... print`), so the caller always sees a normal
return. The trace records the one call with its outcome. -/
def log_alarm (loggedAt : Int) (last_update : Option Int) (message : Option String)
    (writeOk : Bool) : List Action :=
  [Action.logCall loggedAt last_update message writeOk]

/-- The rate-limit check-and-update of lines 121-123: admit and set
`last_alert_time := now` when `now - last_alert_time >= ALERT_INTERVAL`,
otherwise refuse and leave the global unchanged. -/
def tryAdmit (now last : Int) : Bool × Int :=
  if now - last ≥ ALERT_INTERVAL then (true, now) else (false, last)

/-- Embedding of `AlarmListenerApplication.confirmedEventNotificationRequest`.
Inputs: the parsed event, the clock reading `current_time`, whether the
CSV write succeeds, and the current value of the global
`last_alert_time`. Output: the new value of `last_alert_time` and the
action trace of this invocation. -/
def confirmedEventNotificationRequest (apdu : AlarmEvent) (current_time : Int)
    (writeOk : Bool) (last_alert_time : Int) : Int × List Action :=
  let last_update := apdu.timeStamp
  let message := apdu.messageText
  if current_time - last_alert_time ≥ ALERT_INTERVAL then
    (current_time,
      log_alarm current_time last_update message writeOk
        ++ Action.rateCheck current_time true
          :: (SMS_RECIPIENTS.map (fun number => Action.smsTask number message)
              ++ [Action.emailTask "BACnet Alarm" message EMAIL_RECIPIENTS]))
  else
    (last_alert_time,
      log_alarm current_time last_update message writeOk
        ++ [Action.rateCheck current_time false,
            Action.suppressDiag (ALERT_INTERVAL - (current_time - last_alert_time))])

/-- True when the trace of an invocation launched at least one delivery
task, i.e. the event was admitted by the rate limiter. -/
def dispatched (tr : List Action) : Bool :=
  tr.any Action.isDispatch

/-- Runs the handler over a sequence of (arrival time, event) pairs,
threading the global `last_alert_time`; yields the trace of each
invocation. CSV writes are taken to succeed. -/
def runAlarms (last : Int) : List (Int × AlarmEvent) → List (List Action)
  | [] => []
  | (t, ev) :: rest =>
      let r := confirmedEventNotificationRequest ev t true last
      r.2 :: runAlarms r.1 rest

/-- The rate-limit semantics exactly as claim C1 words them, with the
never-admitted ("unset") state read off the source: `last_alert_time`
starts at `0` and is only ever overwritten by an admission, so unset is
`last = last_alert_time_init`. -/
def claimC1Spec (now last : Int) : Prop :=
  ((last = last_alert_time_init ∨ now - last ≥ ALERT_INTERVAL) →
      tryAdmit now last = (true, now)) ∧
  (¬(last = last_alert_time_init ∨ now - last ≥ ALERT_INTERVAL) →
      tryAdmit now last = (false, last))

/-- C1 fails as stated: with no alarm ever admitted (the initial state
`last_alert_time = 0`) and the clock at `10`, the code computes
`10 - 0 >= 300`, which is false, so the alarm is refused and the state
kept — the claim demands admission whenever the state is unset. -/
theorem c1_counterexample : ¬ claimC1Spec 10 0 := by
  intro h
  have h1 := h.1 (Or.inl rfl)
  have : ((10 : Int), (10 : Int)) = (10, 0) := by
    have := h1
    simp [tryAdmit, ALERT_INTERVAL] at this
  simp at this

/-- C1 amended: the handler admits exactly when
`now - last_alert_time >= ALERT_INTERVAL`; the never-admitted state is
represented by `last_alert_time = 0`, so an unset state admits only once
the clock itself reaches the cooldown. On admission the global becomes
`now` and delivery tasks are launched; otherwise the global is unchanged
and the trace ends with the suppression diagnostic showing the remaining
cooldown. -/
theorem c1_amended (apdu : AlarmEvent) (now last : Int) (writeOk : Bool) :
    (now - last ≥ ALERT_INTERVAL →
      (confirmedEventNotificationRequest apdu now writeOk last).1 = now ∧
      dispatched (confirmedEventNotificationRequest apdu now writeOk last).2 = true) ∧
    (now - last < ALERT_INTERVAL →
      (confirmedEventNotificationRequest apdu now writeOk last).1 = last ∧
      (confirmedEventNotificationRequest apdu now writeOk last).2 =
        [Action.logCall now apdu.timeStamp apdu.messageText writeOk,
         Action.rateCheck now false,
         Action.suppressDiag (ALERT_INTERVAL - (now - last))]) := by
  constructor
  · intro h
    simp [confirmedEventNotificationRequest, log_alarm, dispatched, if_pos h,
      SMS_RECIPIENTS, Action.isDispatch]
  · intro h
    have h' : ¬ (now - last ≥ ALERT_INTERVAL) := not_le.mpr h
    simp [confirmedEventNotificationRequest, log_alarm, if_neg h']

/-- C1 amended, exercised at the two sides: clock 300 against the unset
state admits and updates; clock 10 against the unset state refuses,
keeps the state and emits the 290 s diagnostic. -/
theorem c1_amended_witness :
    ((confirmedEventNotificationRequest ⟨none, some "High temp"⟩ 300 true 0).1 = 300 ∧
      dispatched (confirmedEventNotificationRequest ⟨none, some "High temp"⟩ 300 true 0).2 = true) ∧
    ((confirmedEventNotificationRequest ⟨none, some "High temp"⟩ 10 true 0).1 = 0 ∧
      (confirmedEventNotificationRequest ⟨none, some "High temp"⟩ 10 true 0).2 =
        [Action.logCall 10 none (some "High temp") true,
         Action.rateCheck 10 false,
         Action.suppressDiag 290]) := by
  refine ⟨(c1_amended ⟨none, some "High temp"⟩ 300 0 true).1 (by decide), ?_⟩
  have h := (c1_amended ⟨none, some "High temp"⟩ 10 0 true).2 (by decide)
  simpa [ALERT_INTERVAL] using h

/-- C3: every invocation of the handler calls `log_alarm` exactly once,
as the first action of the trace, strictly before the rate-limit check,
whatever the admission outcome and whether or not the CSV write
succeeds. -/
theorem c3_log_once_before_check (apdu : AlarmEvent) (now last : Int) (writeOk : Bool) :
    ∃ tail,
      (confirmedEventNotificationRequest apdu now writeOk last).2 =
        Action.logCall now apdu.timeStamp apdu.messageText writeOk
          :: Action.rateCheck now (tryAdmit now last).1 :: tail ∧
      tail.countP Action.isLogCall = 0 := by
  by_cases h : now - last ≥ ALERT_INTERVAL
  · refine ⟨SMS_RECIPIENTS.map (fun number => Action.smsTask number apdu.messageText)
        ++ [Action.emailTask "BACnet Alarm" apdu.messageText EMAIL_RECIPIENTS], ?_, ?_⟩
    · simp [confirmedEventNotificationRequest, log_alarm, tryAdmit, if_pos h]
    · simp [SMS_RECIPIENTS, EMAIL_RECIPIENTS, Action.isLogCall, List.countP_cons]
  · refine ⟨[Action.suppressDiag (ALERT_INTERVAL - (now - last))], ?_, ?_⟩
    · simp [confirmedEventNotificationRequest, log_alarm, tryAdmit, if_neg h]
    · simp [Action.isLogCall, List.countP_cons]

/-- C4: a failed CSV append is caught inside `log_alarm` (the handler
never sees an exception), and the rest of the invocation — the state
update and every non-logging action, in particular the rate check and
the delivery tasks — is identical to the run in which the write
succeeded. -/
theorem c4_log_failure_isolated (apdu : AlarmEvent) (now last : Int) :
    (confirmedEventNotificationRequest apdu now false last).1 =
      (confirmedEventNotificationRequest apdu now true last).1 ∧
    (confirmedEventNotificationRequest apdu now false last).2.filter
        (fun a => !(Action.isLogCall a)) =
      (confirmedEventNotificationRequest apdu now true last).2.filter
        (fun a => !(Action.isLogCall a)) := by
  by_cases h : now - last ≥ ALERT_INTERVAL
  · simp [confirmedEventNotificationRequest, log_alarm, if_pos h,
      List.filter_cons, Action.isLogCall]
  · simp [confirmedEventNotificationRequest, log_alarm, if_neg h,
      List.filter_cons, Action.isLogCall]

/-- Helper: while the global stays at `t0`, every event arriving less
than `ALERT_INTERVAL` after `t0` is suppressed (leaving the global at
`t0`), and each invocation still logs exactly once. -/
theorem runAlarms_window_suppressed (t0 : Int) (evs : List (Int × AlarmEvent))
    (h : ∀ p ∈ evs, p.1 - t0 < ALERT_INTERVAL) :
    (runAlarms t0 evs).map dispatched = List.replicate evs.length false ∧
    ∀ tr ∈ runAlarms t0 evs, tr.countP Action.isLogCall = 1 := by
  induction evs with
  | nil => simp [runAlarms]
  | cons p rest ih =>
      obtain ⟨t, ev⟩ := p
      have ht : t - t0 < ALERT_INTERVAL := h (t, ev) (by simp)
      have hrest : ∀ q ∈ rest, q.1 - t0 < ALERT_INTERVAL := fun q hq => h q (by simp [hq])
      have hne : ¬ (t - t0 ≥ ALERT_INTERVAL) := not_le.mpr ht
      have hstep : confirmedEventNotificationRequest ev t true t0 =
          (t0, [Action.logCall t ev.timeStamp ev.messageText true,
                Action.rateCheck t false,
                Action.suppressDiag (ALERT_INTERVAL - (t - t0))]) := by
        simp [confirmedEventNotificationRequest, log_alarm, if_neg hne]
      have ihr := ih hrest
      constructor
      · simp [runAlarms, hstep, dispatched, Action.isDispatch, ihr.1, List.replicate_succ]
      · intro tr htr
        simp [runAlarms, hstep] at htr
        rcases htr with rfl | htr
        · simp [Action.isLogCall, List.countP_cons]
        · exact ihr.2 tr htr

/-- C2 fails as stated: the three arrivals 300, 590, 880 are each 290 s
apart (strictly under the 300 s cooldown), yet the third is admitted as
well as the first, because the cooldown is measured from the last
admitted alarm (300), not from the previous arrival. -/
theorem c2_counterexample :
    ((590 : Int) - 300 < ALERT_INTERVAL ∧ (880 : Int) - 590 < ALERT_INTERVAL) ∧
    (runAlarms last_alert_time_init
        [(300, ⟨none, some "High temp"⟩), (590, ⟨none, some "High temp"⟩),
         (880, ⟨none, some "High temp"⟩)]).map dispatched = [true, false, true] := by
  constructor
  · constructor <;> decide
  · decide

/-- C2 amended: if the first event of the sequence is admitted (it
arrives at least one cooldown after the last admitted alarm) and every
later event arrives strictly less than one cooldown after the FIRST
event, then exactly the first event is admitted, every later one is
suppressed, and every invocation logs exactly once. (Measuring the
window from the first admitted event, not between consecutive events, is
what the code enforces.) -/
theorem c2_amended (last t0 : Int) (ev0 : AlarmEvent) (rest : List (Int × AlarmEvent))
    (h0 : t0 - last ≥ ALERT_INTERVAL)
    (hwin : ∀ p ∈ rest, p.1 - t0 < ALERT_INTERVAL) :
    (runAlarms last ((t0, ev0) :: rest)).map dispatched =
      true :: List.replicate rest.length false ∧
    ∀ tr ∈ runAlarms last ((t0, ev0) :: rest), tr.countP Action.isLogCall = 1 := by
  have hstep : confirmedEventNotificationRequest ev0 t0 true last =
      (t0, Action.logCall t0 ev0.timeStamp ev0.messageText true
            :: Action.rateCheck t0 true
            :: (SMS_RECIPIENTS.map (fun number => Action.smsTask number ev0.messageText)
                ++ [Action.emailTask "BACnet Alarm" ev0.messageText EMAIL_RECIPIENTS])) := by
    simp [confirmedEventNotificationRequest, log_alarm, if_pos h0]
  have hrest := runAlarms_window_suppressed t0 rest hwin
  constructor
  · simp [runAlarms, hstep, dispatched, Action.isDispatch, SMS_RECIPIENTS, hrest.1]
  · intro tr htr
    simp [runAlarms, hstep] at htr
    rcases htr with rfl | htr
    · simp [SMS_RECIPIENTS, EMAIL_RECIPIENTS, Action.isLogCall, List.countP_cons]
    · exact hrest.2 tr htr

/-- C2 amended, exercised: arrivals 300 and 310 from the initial state
give the admission pattern [true, false] and one log call each. -/
theorem c2_amended_witness :
    (runAlarms 0 [(300, ⟨none, some "High temp"⟩), (310, ⟨none, some "hot"⟩)]).map dispatched =
      true :: List.replicate 1 false ∧
    ∀ tr ∈ runAlarms 0 [(300, (⟨none, some "High temp"⟩ : AlarmEvent)),
        (310, ⟨none, some "hot"⟩)], tr.countP Action.isLogCall = 1 :=
  c2_amended 0 300 ⟨none, some "High temp"⟩ [(310, ⟨none, some "hot"⟩)]
    (by decide) (by decide)

/-- C5 fails as stated: for an admitted event with 2 SMS recipients and
2 email recipients the handler starts 3 delivery tasks (one SMS thread
per SMS recipient, but a single email thread carrying the whole
recipient list), not the claimed 4 = one per (channel, recipient)
pair. -/
theorem c5_counterexample :
    (confirmedEventNotificationRequest ⟨none, some "High temp"⟩ 300 true 0).2.countP
        Action.isDispatch = 3 ∧
    SMS_RECIPIENTS.length = 2 ∧ EMAIL_RECIPIENTS.length = 2 ∧
    (confirmedEventNotificationRequest ⟨none, some "High temp"⟩ 300 true 0).2.countP
        Action.isDispatch ≠ SMS_RECIPIENTS.length + EMAIL_RECIPIENTS.length := by
  refine ⟨by decide, by decide, by decide, by decide⟩

/-- C5 amended: for every admitted event the handler starts exactly one
SMS task per configured SMS recipient (in list order, each carrying the
event message) and exactly one email task carrying the whole email
recipient list — so 2 SMS recipients and 2 email recipients yield 3
tasks. -/
theorem c5_amended (apdu : AlarmEvent) (now last : Int) (writeOk : Bool)
    (h : now - last ≥ ALERT_INTERVAL) :
    (confirmedEventNotificationRequest apdu now writeOk last).2.filter Action.isSms =
      SMS_RECIPIENTS.map (fun number => Action.smsTask number apdu.messageText) ∧
    (confirmedEventNotificationRequest apdu now writeOk last).2.filter Action.isEmail =
      [Action.emailTask "BACnet Alarm" apdu.messageText EMAIL_RECIPIENTS] := by
  constructor <;>
    simp [confirmedEventNotificationRequest, log_alarm, if_pos h,
      SMS_RECIPIENTS, EMAIL_RECIPIENTS, List.filter_cons, Action.isSms, Action.isEmail]

/-- C5 amended, exercised at an admitted event: two SMS tasks and one
email task, as computed. -/
theorem c5_amended_witness :
    (confirmedEventNotificationRequest ⟨none, some "High temp"⟩ 300 true 0).2.filter
        Action.isSms =
      SMS_RECIPIENTS.map (fun number => Action.smsTask number (some "High temp")) ∧
    (confirmedEventNotificationRequest ⟨none, some "High temp"⟩ 300 true 0).2.filter
        Action.isEmail =
      [Action.emailTask "BACnet Alarm" (some "High temp") EMAIL_RECIPIENTS] :=
  c5_amended ⟨none, some "High temp"⟩ 300 0 true (by decide)

/-- C6 fails as stated: an event with no `messageText` that passes the
rate limiter is dispatched anyway — the handler passes the absent
message straight into the SMS and email tasks, with no skip and no
malformed-event diagnostic. -/
theorem c6_counterexample :
    (⟨some 100, none⟩ : AlarmEvent).messageText = none ∧
    dispatched (confirmedEventNotificationRequest ⟨some 100, none⟩ 300 true 0).2 = true := by
  refine ⟨rfl, by decide⟩

/-- C6 amended: an event with absent `messageText` is logged exactly
once like any other event, and when admitted it is dispatched like any
other event, the absent message being passed through to every SMS and
email task; no dispatch skip and no malformed-event diagnostic exist in
the handler. -/
theorem c6_amended (ts : Option Int) (now last : Int) (writeOk : Bool) :
    (confirmedEventNotificationRequest ⟨ts, none⟩ now writeOk last).2.countP
        Action.isLogCall = 1 ∧
    (now - last ≥ ALERT_INTERVAL →
      (confirmedEventNotificationRequest ⟨ts, none⟩ now writeOk last).2.filter
          Action.isDispatch =
        SMS_RECIPIENTS.map (fun number => Action.smsTask number none)
          ++ [Action.emailTask "BACnet Alarm" none EMAIL_RECIPIENTS]) := by
  constructor
  · by_cases h : now - last ≥ ALERT_INTERVAL <;>
      simp [confirmedEventNotificationRequest, log_alarm, h,
        SMS_RECIPIENTS, EMAIL_RECIPIENTS, Action.isLogCall, List.countP_cons]
  · intro h
    simp [confirmedEventNotificationRequest, log_alarm, if_pos h,
      SMS_RECIPIENTS, EMAIL_RECIPIENTS, List.filter_cons, Action.isDispatch]

/-- C6 amended, exercised: a message-less event at clock 300 from the
initial state is logged once and dispatched to both SMS recipients and
the email group with the absent message. -/
theorem c6_amended_witness :
    (confirmedEventNotificationRequest ⟨some 100, none⟩ 300 true 0).2.countP
        Action.isLogCall = 1 ∧
    (confirmedEventNotificationRequest ⟨some 100, none⟩ 300 true 0).2.filter
        Action.isDispatch =
      SMS_RECIPIENTS.map (fun number => Action.smsTask number none)
        ++ [Action.emailTask "BACnet Alarm" none EMAIL_RECIPIENTS] :=
  ⟨(c6_amended (some 100) 300 0 true).1,
   (c6_amended (some 100) 300 0 true).2 (by decide)⟩

/-- C10: every admitted event launches exactly one email task, whose
subject is the constant string used at line 130 and whose body is the
event message text passed through unchanged; the subject does not depend
on the event. -/
theorem c10_email_subject_constant (apdu : AlarmEvent) (now last : Int) (writeOk : Bool)
    (h : now - last ≥ ALERT_INTERVAL) :
    (confirmedEventNotificationRequest apdu now writeOk last).2.filter Action.isEmail =
      [Action.emailTask "BACnet Alarm" apdu.messageText EMAIL_RECIPIENTS] := by
  simp [confirmedEventNotificationRequest, log_alarm, if_pos h,
    SMS_RECIPIENTS, EMAIL_RECIPIENTS, List.filter_cons, Action.isEmail]

/-- C10 exercised at an admitted event with message "High temp". -/
theorem c10_email_subject_constant_witness :
    (confirmedEventNotificationRequest ⟨none, some "High temp"⟩ 300 true 0).2.filter
        Action.isEmail =
      [Action.emailTask "BACnet Alarm" (some "High temp") EMAIL_RECIPIENTS] :=
  c10_email_subject_constant ⟨none, some "High temp"⟩ 300 0 true (by decide)

/-- The externally-visible steps of `send_email_alert`, in the order the
source performs them inside its single try block: open the SMTP
connection, starttls, login, sendmail, quit. -/
inductive EmailStep where
  | connect
  | starttlsStep
  | loginStep
  | sendmailStep
  | quitStep
deriving DecidableEq

/-- The five steps in source order (lines 96-100 of main.py). -/
def emailSteps : List EmailStep :=
  [.connect, .starttlsStep, .loginStep, .sendmailStep, .quitStep]

/-- Outcome of one `send_email_alert` call. `quitInvoked`: whether
`server.quit()` was reached; `succeeded`: whether the success print was
reached; `raisedToCaller`: whether an exception escaped the function;
`errorReported`: whether the except branch printed an error. -/
structure EmailOutcome where
  quitInvoked : Bool
  succeeded : Bool
  raisedToCaller : Bool
  errorReported : Bool
deriving DecidableEq

/-- The SMTP steps actually invoked when the (first) failure, if any,
happens at step `failAt`: every step strictly before it, then the
failing step itself; with no failure, all five steps. -/
def invokedSteps : Option EmailStep → List EmailStep
  | none => emailSteps
  | some s => emailSteps.takeWhile (fun x => decide (x ≠ s)) ++ [s]

/-- Embedding of `send_email_alert`, parameterised by which SMTP step
(if any) raises. All five steps sit inside one try block with
`server.quit()` last and no finally clause, so a failure at any earlier
step skips the quit; the except branch catches every exception and
prints an error, so nothing propagates to the caller. -/
def send_email_alert (failAt : Option EmailStep) : EmailOutcome :=
  { quitInvoked := decide (EmailStep.quitStep ∈ invokedSteps failAt)
    succeeded := decide (failAt = none)
    raisedToCaller := false
    errorReported := decide (failAt ≠ none) }

/-- C7 fails as stated: when the login step raises, the failure is
caught and reported and nothing propagates, but `server.quit()` is never
reached — the connection is NOT released on a mid-send failure, because
the quit sits inside the try block with no finally. -/
theorem c7_counterexample :
    (send_email_alert (some .loginStep)).errorReported = true ∧
    (send_email_alert (some .loginStep)).raisedToCaller = false ∧
    (send_email_alert (some .loginStep)).quitInvoked = false := by
  refine ⟨by decide, by decide, by decide⟩

/-- C7 amended: every failure mid-send is caught and reported and never
propagates to the caller, but the connection is released (quit invoked)
only when no step before the quit fails: on the all-success path, or
when the quit itself is the failing step. -/
theorem c7_amended (failAt : Option EmailStep) :
    (send_email_alert failAt).raisedToCaller = false ∧
    (send_email_alert failAt).errorReported = decide (failAt ≠ none) ∧
    ((send_email_alert failAt).quitInvoked = true ↔
      failAt = none ∨ failAt = some .quitStep) := by
  rcases failAt with _ | s
  · decide
  · cases s <;> decide

/-- Names bound at module level of main.py by its import statements; the
body of `send_sms_via_teltonika` resolves `requests` against these.
`requests` is never imported. -/
def moduleImportedNames : List String :=
  ["random", "threading", "Thread", "smtplib", "MIMEText", "csv", "time", "datetime",
   "run", "stop", "deferred", "LocalDeviceObject", "Address", "AnalogValueObject",
   "BIPSimpleApplication", "WhoIsIAmServices", "ConfirmedEventNotificationRequest"]

/-- Outcome of one `send_sms_via_teltonika` call. -/
structure SmsOutcome where
  contactedGateway : Bool
  succeeded : Bool
  raisedToCaller : Bool
  errorReported : Bool
deriving DecidableEq

/-- Embedding of `send_sms_via_teltonika`, parameterised by what the
gateway would answer (`some status`, or `none` for a transport error).
The body evaluates the name `requests` before posting; since the module
never imports it, the lookup raises NameError, which the except branch
catches and prints — the gateway is never contacted. Were the name
bound, the success print would require status 200 and any other status
or transport error would be reported. -/
def send_sms_via_teltonika (gatewayStatus : Option Nat) : SmsOutcome :=
  if moduleImportedNames.contains "requests" then
    match gatewayStatus with
    | some 200 => ⟨true, true, false, false⟩
    | some _ => ⟨true, false, false, true⟩
    | none => ⟨true, false, false, true⟩
  else
    ⟨false, false, false, true⟩

/-- C8: the code is at odds with the claim because `requests` is used at
line 78 but never imported; every SMS attempt raises NameError inside
the try block, is caught and printed, and the gateway is never
contacted — so even a gateway that would answer 200 yields no success.
The catch-all does hold: nothing propagates to the caller. -/
theorem c8_code_bug :
    moduleImportedNames.contains "requests" = false ∧
    ∀ gatewayStatus : Option Nat,
      (send_sms_via_teltonika gatewayStatus).contactedGateway = false ∧
      (send_sms_via_teltonika gatewayStatus).succeeded = false ∧
      (send_sms_via_teltonika gatewayStatus).raisedToCaller = false ∧
      (send_sms_via_teltonika gatewayStatus).errorReported = true := by
  have hreq : moduleImportedNames.contains "requests" = false := by decide
  have hmem : "requests" ∉ moduleImportedNames := by decide
  refine ⟨hreq, fun gatewayStatus => ?_⟩
  simp [send_sms_via_teltonika, hmem]

/-- One racing caller of the rate-limit check: program counter 0 = about
to read the global, 1 = about to test and (on success) write, 2 = done;
`localLast` is the value it read; `result` is what it returns. -/
structure TState where
  pc : Nat
  localLast : Int
  result : Bool
deriving DecidableEq

/-- A thread before its first step. -/
def initThread : TState := ⟨0, 0, false⟩

/-- One step of one caller against the shared `last_alert_time`: first
the read of line 122, then the comparison and (if admitted) the write of
line 123. Returns the new shared value and thread state. -/
def stepThread (now sh : Int) (t : TState) : Int × TState :=
  match t.pc with
  | 0 => (sh, ⟨1, sh, t.result⟩)
  | 1 =>
      if now - t.localLast ≥ ALERT_INTERVAL then (now, ⟨2, t.localLast, true⟩)
      else (sh, ⟨2, t.localLast, false⟩)
  | _ => (sh, t)

/-- Shared state of a two-caller race. -/
structure RaceState where
  shared : Int
  t0 : TState
  t1 : TState
deriving DecidableEq

/-- Runs one scheduler choice: `false` steps caller 0, `true` steps
caller 1. -/
def stepRace (now : Int) (s : RaceState) (who : Bool) : RaceState :=
  if who then
    let r := stepThread now s.shared s.t1
    ⟨r.1, s.t0, r.2⟩
  else
    let r := stepThread now s.shared s.t0
    ⟨r.1, r.2, s.t1⟩

/-- Runs a whole interleaving of the two callers. -/
def runRace (now : Int) (sched : List Bool) (s : RaceState) : RaceState :=
  sched.foldl (stepRace now) s

/-- C9 fails as stated: the check-and-update is an unlocked read at line
122 followed by a write at line 123, so the interleaving in which both
callers read the stale global before either writes (read0, read1,
write0, write1, both at clock 300 against the initial state) lets BOTH
callers observe true. -/
theorem c9_counterexample :
    (runRace 300 [false, true, false, true]
        ⟨last_alert_time_init, initThread, initThread⟩).t0.result = true ∧
    (runRace 300 [false, true, false, true]
        ⟨last_alert_time_init, initThread, initThread⟩).t1.result = true := by
  refine ⟨by decide, by decide⟩

/-- C9 amended: the check-and-update is not atomic (see the interleaving
above), but when the two calls run serially — one caller completes its
read and write before the other starts, as the single-threaded BACpypes
event loop arranges — exactly one caller of the same cooldown window
observes true: the first admits and writes `now`, so the second reads
`now` and fails the comparison. -/
theorem c9_amended (now last : Int) (h : now - last ≥ ALERT_INTERVAL) :
    (runRace now [false, false, true, true] ⟨last, initThread, initThread⟩).t0.result = true ∧
    (runRace now [false, false, true, true] ⟨last, initThread, initThread⟩).t1.result = false := by
  have hzero : ¬ (now - now ≥ ALERT_INTERVAL) := by
    simp [ALERT_INTERVAL]
  have hz : ¬ (ALERT_INTERVAL ≤ (0 : Int)) := by decide
  constructor <;>
    simp [runRace, stepRace, stepThread, initThread, if_pos h, if_neg hzero, hz]

/-- C9 amended, exercised: serial callers at clock 300 from the initial
state — the first observes true, the second false. -/
theorem c9_amended_witness :
    (runRace 300 [false, false, true, true] ⟨0, initThread, initThread⟩).t0.result = true ∧
    (runRace 300 [false, false, true, true] ⟨0, initThread, initThread⟩).t1.result = false :=
  c9_amended 300 0 (by decide)

end BACnetSMS
